import Mathlib

/-!
Verification of the CORS static file server (src/server.py).

The program subclasses the standard static-file request handler, overriding
the header-finalization hook `end_headers` to add two CORS headers, then
binds a TCP listener on port 8000 and serves forever inside a `with` block.

We embed the response-header state machine of the handler, the startup
sequence of the main script as an event trace, and — where the deciding
code lives in the standard library rather than in src/ — model the
static-file responder and the socket bind semantics from the spec.
-/

/-- An HTTP response header: a name and a value. -/
structure Header where
  name : String
  value : String
deriving DecidableEq, Repr

/-- The part of the per-request handler state that `send_header` and
`end_headers` act on: the buffered (pending) headers, and whether the
header block has already been finalized and sent on the wire. -/
structure ResponseState where
  pendingHeaders : List Header
  headersSent : Bool
deriving DecidableEq, Repr

/-- `BaseHTTPRequestHandler.send_header`: buffers one header. -/
def send_header (s : ResponseState) (n v : String) : ResponseState :=
  { s with pendingHeaders := s.pendingHeaders ++ [⟨n, v⟩] }

/-- The base class's `end_headers`: finalizes the buffered header block and
sends it (we record only the fact that it was sent). -/
def base_end_headers (s : ResponseState) : ResponseState :=
  { s with headersSent := true }

/-- The first CORS header added by the override (src/server.py line 6). -/
def corsOriginHeader : Header := ⟨"Access-Control-Allow-Origin", "*"⟩

/-- The second CORS header added by the override (src/server.py line 7). -/
def corsMethodsHeader : Header := ⟨"Access-Control-Allow-Methods", "GET"⟩

namespace CORSRequestHandler

/-- `CORSRequestHandler.end_headers` (src/server.py lines 5-8): adds the two
CORS headers with `send_header`, then delegates to the base class's
`end_headers`, which finalizes and sends the header block. -/
def end_headers (s : ResponseState) : ResponseState :=
  base_end_headers
    (send_header
      (send_header s "Access-Control-Allow-Origin" "*")
      "Access-Control-Allow-Methods" "GET")

end CORSRequestHandler

/-- The fixed port constant (src/server.py line 10). -/
def PORT : Nat := 8000

/-- The address passed to the TCP listener (src/server.py line 11): the
empty host string (meaning all available interfaces) and the port. -/
def serverAddress : String × Nat := ("", PORT)

/-- The startup line printed to stdout (src/server.py line 12), built
exactly as the source's format string builds it from `PORT`. -/
def startupMessage : String :=
  "Serving at http://localhost:" ++ toString PORT

/-- A filesystem entry under the serving root: a file with its bytes and a
readability flag, or a directory with an optional index file's bytes and a
generated listing body. -/
inductive Entry where
  | file (contents : List Nat) (readable : Bool)
  | dir (index : Option (List Nat)) (listing : List Nat)
deriving DecidableEq, Repr

/-- The serving root as a finite map from request paths to entries. -/
def FileSystem := List (String × Entry)

/-- Look a path up in the serving root. -/
def FileSystem.lookup (fs : FileSystem) (p : String) : Option Entry :=
  match fs with
  | [] => none
  | (q, e) :: rest => if q = p then some e else FileSystem.lookup rest p

/-- A complete HTTP response: status code, finalized headers, body bytes. -/
structure Response where
  status : Nat
  headers : List Header
  body : List Nat
deriving DecidableEq, Repr

/-- Modelled from the spec: the standard static-file responder
(`SimpleHTTPRequestHandler`'s GET path), which lives in the standard
library and not in src/. Per the spec it maps the URL path to a
filesystem path under the root and returns the file contents with a 200,
or a directory listing (index file if present, listing body otherwise)
with a 200, or a not-found 404; a file read failure is surfaced as a
not-found error status to the client. -/
def staticResolve (fs : FileSystem) (path : String) : Nat × List Nat :=
  match fs.lookup path with
  | some (.file contents true) => (200, contents)
  | some (.file _ false) => (404, [])
  | some (.dir (some idx) _) => (200, idx)
  | some (.dir none listing) => (200, listing)
  | none => (404, [])

/-- One GET request handled by `CORSRequestHandler`: the static responder
chooses status and body, and the header block is finalized through the
overridden `end_headers` hook — the single finalization step for success
and error responses alike. -/
def handleGET (fs : FileSystem) (path : String) : Response :=
  let r := staticResolve fs path
  let s := CORSRequestHandler.end_headers ⟨[], false⟩
  ⟨r.1, s.pendingHeaders, r.2⟩

/-- An incoming request: a GET for a path, or a malformed request. -/
inductive Request where
  | get (path : String)
  | malformed
deriving DecidableEq, Repr

/-- Modelled from the spec: per-request handling including the error
policy of the underlying facilities (standard library, not in src/): a
malformed request is answered with a standard HTTP error status (400) to
that client, also finalized through the overridden `end_headers`; no
request error escapes the handler. -/
def handleRequest (fs : FileSystem) (r : Request) : Response :=
  match r with
  | .get p => handleGET fs p
  | .malformed =>
      ⟨400, (CORSRequestHandler.end_headers ⟨[], false⟩).pendingHeaders, []⟩

/-- Modelled from the spec: the unbounded accept loop (`serve_forever`,
standard library, not in src/): each incoming request is handled to a
response and the loop continues with the next one; a per-request error
never terminates the loop. -/
def serveAll (fs : FileSystem) (rs : List Request) : List Response :=
  rs.map (handleRequest fs)

/-- Observable process-level events of the main script. -/
inductive Event where
  | bindFailed
  | bound (port : Nat)
  | printed (msg : String)
  | enteredLoop
  | closed
  | exnPropagated
deriving DecidableEq, Repr

/-- How the accept loop ends: it never returns normally, only by an
exception (e.g. an interrupt) propagating out of `serve_forever`; we also
model a hypothetical normal return to show the scoped close is
unconditional. -/
inductive ServeOutcome where
  | exn
  | normal
deriving DecidableEq, Repr

/-- The `with` block (src/server.py lines 11-13): the body prints the
startup line and enters the accept loop; on any exit of the body — normal
or exceptional — the scoped acquisition closes the listening socket, and
an exception then continues to propagate. -/
def withBlockTrace (o : ServeOutcome) : List Event :=
  [Event.printed startupMessage, Event.enteredLoop] ++
    (match o with
     | .normal => [Event.closed]
     | .exn => [Event.closed, Event.exnPropagated])

/-- Modelled from the spec: OS-level TCP bind semantics (inside
`socketserver.TCPServer`, standard library, not in src/): binding fails
exactly when the port is already bound by another process (or permission
is lacking, folded into `boundPorts` membership); on failure the
constructor raises, the `with` body never runs, and the process
terminates with no retry. On success the script runs the `with` block. -/
def mainTrace (boundPorts : List Nat) (o : ServeOutcome) : List Event :=
  if PORT ∈ boundPorts then [Event.bindFailed]
  else Event.bound PORT :: withBlockTrace o

/-- Is this event a print to stdout? -/
def Event.isPrint : Event → Bool
  | .printed _ => true
  | _ => false

/-- Every response's status is either a success or an HTTP error status. -/
theorem handleRequest_status (fs : FileSystem) (r : Request) :
    (handleRequest fs r).status = 200 ∨ 400 ≤ (handleRequest fs r).status := by
  cases r with
  | get p =>
      unfold handleRequest handleGET staticResolve
      cases h : fs.lookup p with
      | none => simp [h]
      | some e =>
          cases e with
          | file contents readable => cases readable <;> simp [h]
          | dir index listing => cases index <;> simp [h]
  | malformed => simp [handleRequest]

/-- C1: the overridden `end_headers` hook — the single header-finalization
step, run for every response path including errors — appends
`Access-Control-Allow-Origin: *` and `Access-Control-Allow-Methods: GET`
to the buffered header block before finalizing and sending it, so every
response handled through the hook carries both headers. -/
theorem end_headers_adds_cors_to_every_response (s : ResponseState) :
    (CORSRequestHandler.end_headers s).pendingHeaders =
      s.pendingHeaders ++ [corsOriginHeader, corsMethodsHeader] ∧
    (CORSRequestHandler.end_headers s).headersSent = true ∧
    ∀ fs r, corsOriginHeader ∈ (handleRequest fs r).headers ∧
      corsMethodsHeader ∈ (handleRequest fs r).headers := by
  refine ⟨?_, rfl, ?_⟩
  · simp [CORSRequestHandler.end_headers, base_end_headers, send_header,
      corsOriginHeader, corsMethodsHeader]
  · intro fs r
    cases r with
    | get p =>
        simp [handleRequest, handleGET, CORSRequestHandler.end_headers,
          base_end_headers, send_header, corsOriginHeader, corsMethodsHeader]
    | malformed =>
        simp [handleRequest, CORSRequestHandler.end_headers,
          base_end_headers, send_header, corsOriginHeader, corsMethodsHeader]

/-- C2: a GET for a path that resolves to an existing readable file under
the serving root answers with status 200 and a body equal to the file's
bytes. -/
theorem get_existing_file (fs : FileSystem) (p : String) (contents : List Nat)
    (h : fs.lookup p = some (.file contents true)) :
    (handleGET fs p).status = 200 ∧ (handleGET fs p).body = contents := by
  simp [handleGET, staticResolve, h]

/-- Witness for C2 on a concrete root holding one readable file. -/
theorem get_existing_file_witness :
    ([("/index.html", Entry.file [60, 104, 49, 62] true)] : FileSystem).lookup
        "/index.html" = some (.file [60, 104, 49, 62] true) ∧
    (handleGET [("/index.html", Entry.file [60, 104, 49, 62] true)]
        "/index.html").status = 200 ∧
    (handleGET [("/index.html", Entry.file [60, 104, 49, 62] true)]
        "/index.html").body = [60, 104, 49, 62] :=
  ⟨by decide, get_existing_file _ _ _ (by decide)⟩

/-- C3: a GET for a path that resolves to no existing file answers with
status 404 and still carries both CORS headers. -/
theorem get_missing_file (fs : FileSystem) (p : String)
    (h : fs.lookup p = none) :
    (handleGET fs p).status = 404 ∧
    corsOriginHeader ∈ (handleGET fs p).headers ∧
    corsMethodsHeader ∈ (handleGET fs p).headers := by
  refine ⟨by simp [handleGET, staticResolve, h], ?_, ?_⟩ <;>
    simp [handleGET, CORSRequestHandler.end_headers, base_end_headers,
      send_header, corsOriginHeader, corsMethodsHeader]

/-- Witness for C3 on the empty serving root. -/
theorem get_missing_file_witness :
    (([] : FileSystem).lookup "/missing") = none ∧
    (handleGET [] "/missing").status = 404 ∧
    corsOriginHeader ∈ (handleGET [] "/missing").headers ∧
    corsMethodsHeader ∈ (handleGET [] "/missing").headers :=
  ⟨by decide, get_missing_file [] "/missing" (by decide)⟩

/-- C4: the listener is created on the empty host string — all available
interfaces — at port 8000, the value of the module-level constant `PORT`;
the script reads no flags or environment, so the port changes only by
editing the source. -/
theorem binds_all_interfaces_port_8000 :
    serverAddress = ("", 8000) ∧ serverAddress.2 = PORT ∧ PORT = 8000 := by
  decide

/-- C5: when the port is already bound (or permission is lacking), the
startup trace is exactly one failed bind: the accept loop is never
entered and no retry happens; and a second instance attempting the
already-held port fails the same way while the first instance's trace —
computed from a free port — still enters the accept loop. -/
theorem bind_failure_is_fatal (boundPorts : List Nat) (o o' : ServeOutcome)
    (h : PORT ∈ boundPorts) :
    mainTrace boundPorts o = [Event.bindFailed] ∧
    Event.enteredLoop ∉ mainTrace boundPorts o ∧
    mainTrace [PORT] o' = [Event.bindFailed] ∧
    Event.enteredLoop ∈ mainTrace [] o' := by
  refine ⟨by simp [mainTrace, h], ?_, by simp [mainTrace], ?_⟩
  · simp [mainTrace, h]
  · cases o' <;> decide

/-- Witness for C5 with port 8000 already bound. -/
theorem bind_failure_is_fatal_witness :
    PORT ∈ [8000] ∧
    mainTrace [8000] .exn = [Event.bindFailed] ∧
    Event.enteredLoop ∉ mainTrace [8000] .exn ∧
    mainTrace [PORT] .exn = [Event.bindFailed] ∧
    Event.enteredLoop ∈ mainTrace [] .exn :=
  ⟨by decide, bind_failure_is_fatal [8000] .exn .exn (by decide)⟩

/-- C6: every request in a stream gets exactly one response with an HTTP
status (success or error); per-request failures — unreadable files,
missing files, malformed requests — surface as error statuses to that
client and never terminate the handling of the remaining requests. -/
theorem request_errors_do_not_stop_loop (fs : FileSystem) (rs : List Request) :
    (serveAll fs rs).length = rs.length ∧
    (∀ resp ∈ serveAll fs rs, resp.status = 200 ∨ 400 ≤ resp.status) := by
  refine ⟨List.length_map _ _, ?_⟩
  intro resp hresp
  rcases List.mem_map.mp hresp with ⟨r, _, rfl⟩
  exact handleRequest_status fs r

/-- C7: a GET for a path that resolves to a directory with no index file
answers with status 200, the directory-listing body, and both CORS
headers. -/
theorem get_directory_listing (fs : FileSystem) (p : String)
    (listing : List Nat) (h : fs.lookup p = some (.dir none listing)) :
    (handleGET fs p).status = 200 ∧ (handleGET fs p).body = listing ∧
    corsOriginHeader ∈ (handleGET fs p).headers ∧
    corsMethodsHeader ∈ (handleGET fs p).headers := by
  refine ⟨by simp [handleGET, staticResolve, h],
    by simp [handleGET, staticResolve, h], ?_, ?_⟩ <;>
    simp [handleGET, CORSRequestHandler.end_headers, base_end_headers,
      send_header, corsOriginHeader, corsMethodsHeader]

/-- Witness for C7 on a root holding one index-less directory. -/
theorem get_directory_listing_witness :
    ([("/sub", Entry.dir none [100, 105, 114])] : FileSystem).lookup "/sub" =
      some (.dir none [100, 105, 114]) ∧
    (handleGET [("/sub", Entry.dir none [100, 105, 114])] "/sub").status =
      200 ∧
    (handleGET [("/sub", Entry.dir none [100, 105, 114])] "/sub").body =
      [100, 105, 114] ∧
    corsOriginHeader ∈
      (handleGET [("/sub", Entry.dir none [100, 105, 114])] "/sub").headers ∧
    corsMethodsHeader ∈
      (handleGET [("/sub", Entry.dir none [100, 105, 114])] "/sub").headers :=
  ⟨by decide, get_directory_listing _ _ _ (by decide)⟩

/-- C8: after a successful bind, the trace holds exactly one print event;
it prints the startup message — which contains the bound port — and it
occurs strictly before the accept loop is entered. -/
theorem startup_print_before_loop (boundPorts : List Nat) (o : ServeOutcome)
    (h : PORT ∉ boundPorts) :
    (mainTrace boundPorts o).filter Event.isPrint =
      [Event.printed startupMessage] ∧
    (mainTrace boundPorts o).get? 1 = some (Event.printed startupMessage) ∧
    (mainTrace boundPorts o).get? 2 = some Event.enteredLoop ∧
    ∃ a b, startupMessage = a ++ toString PORT ++ b := by
  rw [mainTrace, if_neg h]
  refine ⟨?_, rfl, rfl, "Serving at http://localhost:", "", rfl⟩
  cases o <;> decide

/-- Witness for C8 on a free port. -/
theorem startup_print_before_loop_witness :
    PORT ∉ ([] : List Nat) ∧
    ((mainTrace [] .exn).filter Event.isPrint =
      [Event.printed startupMessage] ∧
    (mainTrace [] .exn).get? 1 = some (Event.printed startupMessage) ∧
    (mainTrace [] .exn).get? 2 = some Event.enteredLoop ∧
    ∃ a b, startupMessage = a ++ toString PORT ++ b) :=
  ⟨by decide, startup_print_before_loop [] .exn (by decide)⟩

/-- C9: the startup line is exactly `Serving at http://localhost:8000`,
naming localhost even though the listener's host string is empty (all
interfaces). -/
theorem startup_message_names_localhost :
    startupMessage = "Serving at http://localhost:8000" ∧
    serverAddress.1 = "" := by
  decide

/-- C10: the server is acquired in a scoped block, so after a successful
bind the listening socket is closed on every exit of the accept loop: on
a (hypothetical) normal return, and on an exception, where the close
precedes the exception's propagation out of the process. -/
theorem socket_closed_on_all_exits (boundPorts : List Nat)
    (h : PORT ∉ boundPorts) :
    (∀ o, Event.closed ∈ mainTrace boundPorts o) ∧
    mainTrace boundPorts .normal =
      [Event.bound PORT, Event.printed startupMessage, Event.enteredLoop,
       Event.closed] ∧
    mainTrace boundPorts .exn =
      [Event.bound PORT, Event.printed startupMessage, Event.enteredLoop,
       Event.closed, Event.exnPropagated] := by
  refine ⟨?_, by rw [mainTrace, if_neg h]; rfl,
    by rw [mainTrace, if_neg h]; rfl⟩
  intro o
  rw [mainTrace, if_neg h]
  cases o <;> decide

/-- Witness for C10 on a free port. -/
theorem socket_closed_on_all_exits_witness :
    PORT ∉ ([] : List Nat) ∧
    ((∀ o, Event.closed ∈ mainTrace [] o) ∧
    mainTrace [] .normal =
      [Event.bound PORT, Event.printed startupMessage, Event.enteredLoop,
       Event.closed] ∧
    mainTrace [] .exn =
      [Event.bound PORT, Event.printed startupMessage, Event.enteredLoop,
       Event.closed, Event.exnPropagated]) :=
  ⟨by decide, socket_closed_on_all_exits [] (by decide)⟩
